import Mathlib

/-!
Verification of the `cookbook` app (models.py, services.py, views.py):
a recipe catalog with a read-through data cache and a TTL response cache.

Shallow embedding conventions:
* The Entity Store is the list of recipes it would return from the
  eager-join fetch (`Recipe.objects.prefetch_related(...)`): each `Recipe`
  record already carries its `Ingredient` rows, and each ingredient its
  `Food` row, exactly as the Entity Store boundary of the spec delivers them.
* Django's cache is a finite map from string keys to stored values; each
  entry additionally records the explicit expiry argument passed to `set`
  (`none` when the call gave no timeout, as `cache.set('recipes', recipes)`
  does, leaving the cache's default policy in charge).
* `fetchCount` counts Entity Store fetches; `reset_queries` and the debug
  `print` of `services.py` only affect console output and are not state.
* Python exceptions are embedded with `Except`: the exception-explicit
  variants thread every fallible capability call through `Except`, and the
  source has no `try`/`except`, so errors short-circuit unmodified.
-/

/-- models.py `Food`: identity + display name (`name = CharField(...)`). -/
structure Food where
  name : String
deriving DecidableEq, Repr

/-- models.py `Ingredient.amount = DecimalField(max_digits=6, decimal_places=3)`:
a fixed-point decimal of scale 3, stored as its exact integer numerator in
thousandths (value = `scaled / 1000`), with no binary-float rounding. -/
structure DecimalAmount where
  scaled : Int
deriving DecidableEq, Repr

/-- The validity predicate declared by `DecimalField(max_digits=6, decimal_places=3)`:
at most 6 significant digits in total, 3 of them after the point, so the
numerator in thousandths has absolute value below `10 ^ 6`.  The sign is not
constrained by the field declaration. -/
def DecimalAmount.valid (a : DecimalAmount) : Prop :=
  a.scaled.natAbs < 10 ^ 6

instance (a : DecimalAmount) : Decidable a.valid := by
  unfold DecimalAmount.valid; infer_instance

/-- models.py `Ingredient`: joins one `Recipe` (represented by containment in
`Recipe.ingredients` below) with one `Food`, plus `amount` and
`unit_of_measure = CharField(...)`. -/
structure Ingredient where
  food : Food
  amount : DecimalAmount
  unit_of_measure : String
deriving DecidableEq, Repr

/-- models.py `Recipe` together with its one-to-many `Ingredient` rows as the
eager-join fetch of the Entity Store returns them. -/
structure Recipe where
  name : String
  ingredients : List Ingredient
deriving DecidableEq, Repr

/-- One cache entry: key, stored value, and the explicit expiry argument that
was passed to `set` (`none` = no explicit expiry, default policy governs). -/
structure CacheEntry where
  key : String
  value : List Recipe
  ttl : Option Nat
deriving DecidableEq, Repr

/-- The Django cache boundary: a finite map from keys to entries. -/
structure Cache where
  entries : List CacheEntry
deriving DecidableEq, Repr

/-- `key in cache` (Python membership test on the Django cache). -/
def Cache.has (c : Cache) (k : String) : Bool :=
  c.entries.any (fun e => e.key == k)

/-- The entry currently stored under `k`, if any. -/
def Cache.find? (c : Cache) (k : String) : Option CacheEntry :=
  c.entries.find? (fun e => e.key == k)

/-- `cache.get(k)`: the stored value under `k`, if any. -/
def Cache.get (c : Cache) (k : String) : Option (List Recipe) :=
  (c.find? k).map (fun e => e.value)

/-- `cache.set(k, v)` / `cache.set(k, v, ttl)`: overwrite the entry under `k`,
recording the explicit expiry argument (`none` when the call passed none). -/
def Cache.set (c : Cache) (k : String) (v : List Recipe) (ttl : Option Nat) : Cache :=
  ⟨⟨k, v, ttl⟩ :: c.entries.filter (fun e => e.key ≠ k)⟩

/-- The state the service layer acts on: the Entity Store snapshot, the
process-wide cache, and the running count of Entity Store fetches. -/
structure St where
  store : List Recipe
  cache : Cache
  fetchCount : Nat
deriving DecidableEq, Repr

/-- The Entity Store boundary of the spec:
`list(Recipe.objects.prefetch_related('ingredients'))` — one fetch returning
every recipe with ingredients and their foods eagerly loaded. -/
def fetchRecipes (s : St) : List Recipe × St :=
  (s.store, { s with fetchCount := s.fetchCount + 1 })

/-- services.py `get_recipes_without_cache`: reset the query log, fetch all
recipes from the Entity Store, print the query count, return the recipes.
(`reset_queries` and the `print` touch only the debug log, not this state.) -/
def get_recipes_without_cache (s : St) : List Recipe × St :=
  let (recipes, s') := fetchRecipes s
  (recipes, s')

/-- services.py `get_recipes_with_cache`: if `'recipes' in cache` return
`cache.get('recipes')`; else fetch from the Entity Store, run
`cache.set('recipes', recipes)` (no explicit expiry), and return the fetch.
(When the membership test succeeds the `get` necessarily yields the stored
value, so the `getD []` default is never taken.) -/
def get_recipes_with_cache (s : St) : List Recipe × St :=
  if s.cache.has "recipes" then
    ((s.cache.get "recipes").getD [], s)
  else
    let (recipes, s') := fetchRecipes s
    (recipes, { s' with cache := s'.cache.set "recipes" recipes none })

/-- `n` successive calls of `get_recipes_without_cache`, threading the state. -/
def runWithoutCacheN : Nat → St → St
  | 0, s => s
  | n + 1, s => runWithoutCacheN n (get_recipes_without_cache s).2

/-- views.py `CACHE_TTL = 60 * 15` ("Cache time to live is 15 minutes."). -/
def CACHE_TTL : Nat := 60 * 15

/-- The output of the presentation boundary `render(template_name, context)`:
the template name bound to the recipe sequence of its context. -/
structure Rendered where
  template : String
  recipes : List Recipe
deriving DecidableEq, Repr

/-- views.py `render(request, 'cookbook/recipes.html', {'recipes': ...})`,
with the request opaque to this core. -/
def render (template : String) (recipes : List Recipe) : Rendered :=
  ⟨template, recipes⟩

/-- State seen by the page handler: the service-layer state plus the response
cache of `cache_page` (the cached page together with its expiry instant). -/
structure ViewState where
  st : St
  respCache : Option (Rendered × Nat)
deriving DecidableEq, Repr

/-- views.py `recipes_view` body (before decoration): render
`'cookbook/recipes.html'` with `get_recipes()`, where
`get_recipes = get_recipes_without_cache`. -/
def recipes_view_body (s : ViewState) : Rendered × ViewState :=
  let (recipes, st') := get_recipes_without_cache s.st
  (render "cookbook/recipes.html" recipes, { s with st := st' })

/-- Modelled from the spec: Django's `cache_page(CACHE_TTL)` decorator is
framework code not present in this repository; per spec sections 4.1 and 8,
the Page Handler output is cached for a fixed time-to-live: a request within
the TTL returns the cached rendered output without re-executing the handler,
and a request at or after expiry re-executes the full handler (including the
data fetch) and caches its fresh output for another `CACHE_TTL` seconds.
`now` is the request instant in seconds. -/
def recipes_view (now : Nat) (s : ViewState) : Rendered × ViewState :=
  match s.respCache with
  | some (r, expiresAt) =>
    if now < expiresAt then
      (r, s)
    else
      let (r', s') := recipes_view_body s
      (r', { s' with respCache := some (r', now + CACHE_TTL) })
  | none =>
    let (r', s') := recipes_view_body s
    (r', { s' with respCache := some (r', now + CACHE_TTL) })

/-- The fallible capabilities of the spec's external interfaces (section 6),
embedding Python exceptions as `Except`: the Entity Store fetch, the cache
operations, and the presentation boundary may each raise. -/
structure Caps (E : Type) where
  fetch : Except E (List Recipe)
  cacheHas : String → Except E Bool
  cacheGet : String → Except E (Option (List Recipe))
  cacheSet : String → List Recipe → Except E Unit
  renderPage : List Recipe → Except E Rendered

/-- Exception-explicit `get_recipes_without_cache`: the single fetch, with no
`try`/`except` anywhere in its body. -/
def get_recipes_without_cacheExc {E : Type} (caps : Caps E) :
    Except E (List Recipe) := do
  let recipes ← caps.fetch
  pure recipes

/-- Exception-explicit `get_recipes_with_cache`: membership test, then either
`cache.get` or fetch-and-`cache.set`, with no `try`/`except` anywhere. -/
def get_recipes_with_cacheExc {E : Type} (caps : Caps E) :
    Except E (List Recipe) := do
  let hit ← caps.cacheHas "recipes"
  if hit then
    let v ← caps.cacheGet "recipes"
    pure (v.getD [])
  else
    let recipes ← caps.fetch
    let _ ← caps.cacheSet "recipes" recipes
    pure recipes

/-- Exception-explicit `recipes_view` body: the data fetch then the render,
with no `try`/`except` anywhere. -/
def recipes_viewExc {E : Type} (caps : Caps E) : Except E Rendered := do
  let recipes ← get_recipes_without_cacheExc caps
  caps.renderPage recipes

/-- A successful membership test guarantees `cache.get` yields a stored value. -/
lemma Cache.get_eq_some_of_has {c : Cache} {k : String} (h : c.has k = true) :
    ∃ v, c.get k = some v := by
  rcases List.any_eq_true.mp h with ⟨e, he, hk⟩
  have hsome : (c.entries.find? (fun e => e.key == k)).isSome :=
    List.find?_isSome.mpr ⟨e, he, hk⟩
  rcases Option.isSome_iff_exists.mp hsome with ⟨e', he'⟩
  exact ⟨e'.value, by simp [Cache.get, Cache.find?, he']⟩

/-- `set` leaves its entry, value and explicit-expiry argument intact, at the
front of the map. -/
lemma Cache.find?_set_self (c : Cache) (k : String) (v : List Recipe)
    (ttl : Option Nat) : (c.set k v ttl).find? k = some ⟨k, v, ttl⟩ := by
  simp [Cache.set, Cache.find?]

/-- `get` after `set` of the same key yields the stored value. -/
lemma Cache.get_set_self (c : Cache) (k : String) (v : List Recipe)
    (ttl : Option Nat) : (c.set k v ttl).get k = some v := by
  simp [Cache.get, Cache.find?_set_self]

/-- Membership holds after `set` of the same key. -/
lemma Cache.has_set_self (c : Cache) (k : String) (v : List Recipe)
    (ttl : Option Nat) : (c.set k v ttl).has k = true := by
  simp [Cache.set, Cache.has]

/-- `n` calls of the no-cache reader only bump the fetch count `n` times. -/
lemma runWithoutCacheN_eq (n : Nat) (s : St) :
    runWithoutCacheN n s = { s with fetchCount := s.fetchCount + n } := by
  induction n generalizing s with
  | zero => simp [runWithoutCacheN]
  | succ n ih =>
    simp only [runWithoutCacheN, get_recipes_without_cache, fetchRecipes, ih]
    congr 1
    omega

/-- The spec's sample food record (section 8): Food "Flour". -/
def flour : Food := ⟨"Flour"⟩

/-- The spec's sample ingredient: Flour, amount exactly 1.250, unit "cup". -/
def flourCup : Ingredient := ⟨flour, ⟨1250⟩, "cup"⟩

/-- The spec's sample recipe: "Pancakes" with the single Flour ingredient. -/
def pancakes : Recipe := ⟨"Pancakes", [flourCup]⟩

/-- Sample state: one recipe stored, cache empty (a miss state). -/
def stMiss : St := ⟨[pancakes], ⟨[]⟩, 0⟩

/-- Sample state: cache already populated under "recipes" (a hit state). -/
def stHit : St := ⟨[pancakes], ⟨[⟨"recipes", [pancakes], none⟩]⟩, 0⟩

/-- Sample state: Entity Store empty and cache empty. -/
def stEmpty : St := ⟨[], ⟨[]⟩, 0⟩

/-- C1: on a cache miss (key "recipes" absent), `get_recipes_with_cache`
fetches the full eager-join snapshot from the Entity Store (one fetch),
stores that sequence under the literal key "recipes" with no explicit
expiry, and returns that same sequence. -/
theorem cacheMiss_fetches_stores_returns (s : St)
    (h : s.cache.has "recipes" = false) :
    (get_recipes_with_cache s).1 = s.store ∧
    (get_recipes_with_cache s).2.cache.find? "recipes" =
      some ⟨"recipes", s.store, none⟩ ∧
    (get_recipes_with_cache s).2.fetchCount = s.fetchCount + 1 ∧
    (get_recipes_with_cache s).2.store = s.store := by
  simp [get_recipes_with_cache, h, fetchRecipes, Cache.find?_set_self]

/-- C1 witness: the miss scenario at the concrete one-recipe state. -/
theorem cacheMiss_fetches_stores_returns_witness :
    (get_recipes_with_cache stMiss).1 = stMiss.store ∧
    (get_recipes_with_cache stMiss).2.cache.find? "recipes" =
      some ⟨"recipes", stMiss.store, none⟩ ∧
    (get_recipes_with_cache stMiss).2.fetchCount = stMiss.fetchCount + 1 ∧
    (get_recipes_with_cache stMiss).2.store = stMiss.store :=
  cacheMiss_fetches_stores_returns stMiss (by decide)

/-- C3: on a cache hit (key "recipes" present), `get_recipes_with_cache`
returns exactly the cached sequence and issues no Entity Store fetch. -/
theorem cacheHit_returns_cached_no_fetch (s : St)
    (h : s.cache.has "recipes" = true) :
    some (get_recipes_with_cache s).1 = s.cache.get "recipes" ∧
    (get_recipes_with_cache s).2.fetchCount = s.fetchCount := by
  obtain ⟨v, hv⟩ := Cache.get_eq_some_of_has h
  simp [get_recipes_with_cache, h, hv]

/-- C3 witness: the hit scenario at the concrete populated state. -/
theorem cacheHit_returns_cached_no_fetch_witness :
    some (get_recipes_with_cache stHit).1 = stHit.cache.get "recipes" ∧
    (get_recipes_with_cache stHit).2.fetchCount = stHit.fetchCount :=
  cacheHit_returns_cached_no_fetch stHit (by decide)

/-- C9: on a cache hit the reader performs no cache write at all — the whole
state (cache contents under every key included) is identical after the call. -/
theorem cacheHit_leaves_state_unchanged (s : St)
    (h : s.cache.has "recipes" = true) :
    (get_recipes_with_cache s).2 = s := by
  simp [get_recipes_with_cache, h]

/-- C9 witness: frame preservation at the concrete populated state. -/
theorem cacheHit_leaves_state_unchanged_witness :
    (get_recipes_with_cache stHit).2 = stHit :=
  cacheHit_leaves_state_unchanged stHit (by decide)

/-- C10: cache-return coherence — at the moment `get_recipes_with_cache`
returns, the value stored under "recipes" is exactly the returned sequence. -/
theorem returned_sequence_equals_cached (s : St) :
    (get_recipes_with_cache s).2.cache.get "recipes" =
      some (get_recipes_with_cache s).1 := by
  by_cases h : s.cache.has "recipes" = true
  · obtain ⟨v, hv⟩ := Cache.get_eq_some_of_has h
    simp [get_recipes_with_cache, h, hv]
  · have h' : s.cache.has "recipes" = false := by
      cases hb : s.cache.has "recipes" with
      | false => rfl
      | true => exact absurd hb h
    simp [get_recipes_with_cache, h', fetchRecipes, Cache.get_set_self]

/-- C5: with an empty Entity Store and a cold cache, the reader returns the
empty sequence, populates the cache with it, and a subsequent call is a hit
(same empty result, no further fetch). -/
theorem emptyStore_miss_populates_empty (s : St) (h0 : s.store = [])
    (h : s.cache.has "recipes" = false) :
    (get_recipes_with_cache s).1 = [] ∧
    (get_recipes_with_cache s).2.cache.get "recipes" = some [] ∧
    (get_recipes_with_cache s).2.cache.has "recipes" = true ∧
    (get_recipes_with_cache (get_recipes_with_cache s).2).1 = [] ∧
    (get_recipes_with_cache (get_recipes_with_cache s).2).2.fetchCount =
      (get_recipes_with_cache s).2.fetchCount := by
  simp [get_recipes_with_cache, h, h0, fetchRecipes, Cache.get_set_self,
    Cache.has_set_self]

/-- C5 witness: the empty-store scenario at the concrete empty state. -/
theorem emptyStore_miss_populates_empty_witness :
    (get_recipes_with_cache stEmpty).1 = [] ∧
    (get_recipes_with_cache stEmpty).2.cache.get "recipes" = some [] ∧
    (get_recipes_with_cache stEmpty).2.cache.has "recipes" = true ∧
    (get_recipes_with_cache (get_recipes_with_cache stEmpty).2).1 = [] ∧
    (get_recipes_with_cache (get_recipes_with_cache stEmpty).2).2.fetchCount =
      (get_recipes_with_cache stEmpty).2.fetchCount :=
  emptyStore_miss_populates_empty stEmpty (by decide) (by decide)

/-- C2 counterexample: the claim "for every initial state with the cache
enabled, two consecutive calls issue exactly one Entity Store fetch" is
false — starting from a state whose cache already holds "recipes", both
calls hit and zero fetches are issued. -/
theorem twoCalls_exactly_one_fetch_false :
    ¬ (∀ s : St,
        (get_recipes_with_cache (get_recipes_with_cache s).2).2.fetchCount =
          s.fetchCount + 1) := by
  intro h
  have hc := h ⟨[], ⟨[⟨"recipes", [], none⟩]⟩, 0⟩
  simp [get_recipes_with_cache, Cache.has, Cache.get, Cache.find?] at hc

/-- C2 (amended): two consecutive calls of `get_recipes_with_cache` with no
intervening writes issue at most one Entity Store fetch — exactly one when
the key "recipes" is initially absent, zero when it is already cached — and
the second call returns the same sequence as the first. -/
theorem twoCalls_at_most_one_fetch (s : St) :
    (get_recipes_with_cache (get_recipes_with_cache s).2).1 =
      (get_recipes_with_cache s).1 ∧
    (get_recipes_with_cache (get_recipes_with_cache s).2).2.fetchCount ≤
      s.fetchCount + 1 ∧
    (s.cache.has "recipes" = false →
      (get_recipes_with_cache (get_recipes_with_cache s).2).2.fetchCount =
        s.fetchCount + 1) ∧
    (s.cache.has "recipes" = true →
      (get_recipes_with_cache (get_recipes_with_cache s).2).2.fetchCount =
        s.fetchCount) := by
  by_cases h : s.cache.has "recipes" = true
  · obtain ⟨v, hv⟩ := Cache.get_eq_some_of_has h
    refine ⟨?_, ?_, ?_, fun _ => ?_⟩
    · simp [get_recipes_with_cache, h, hv]
    · simp [get_recipes_with_cache, h, hv]
    · intro hf
      rw [hf] at h
      exact absurd h (by decide)
    · simp [get_recipes_with_cache, h, hv]
  · have h' : s.cache.has "recipes" = false := by
      cases hb : s.cache.has "recipes" with
      | false => rfl
      | true => exact absurd hb h
    refine ⟨?_, ?_, fun _ => ?_, fun ht => absurd ht (by simp [h'])⟩ <;>
      simp [get_recipes_with_cache, h', fetchRecipes, Cache.has_set_self,
        Cache.get_set_self]

/-- C2 witness: starting cold, the two calls agree and issue one fetch. -/
theorem twoCalls_at_most_one_fetch_witness :
    (get_recipes_with_cache (get_recipes_with_cache stMiss).2).1 =
      (get_recipes_with_cache stMiss).1 ∧
    (get_recipes_with_cache (get_recipes_with_cache stMiss).2).2.fetchCount ≤
      stMiss.fetchCount + 1 ∧
    (stMiss.cache.has "recipes" = false →
      (get_recipes_with_cache (get_recipes_with_cache stMiss).2).2.fetchCount =
        stMiss.fetchCount + 1) ∧
    (stMiss.cache.has "recipes" = true →
      (get_recipes_with_cache (get_recipes_with_cache stMiss).2).2.fetchCount =
        stMiss.fetchCount) :=
  twoCalls_at_most_one_fetch stMiss

/-- C4: `n` calls of the no-cache reader issue exactly `n` Entity Store
fetches, never touch the cache (no writes: the cache is unchanged; no reads:
the returned sequence does not depend on the cache contents), and leave the
store as is. -/
theorem noCache_reader_n_calls_n_fetches (n : Nat) (s : St) :
    (runWithoutCacheN n s).fetchCount = s.fetchCount + n ∧
    (runWithoutCacheN n s).cache = s.cache ∧
    (runWithoutCacheN n s).store = s.store ∧
    (∀ c : Cache, (get_recipes_without_cache { s with cache := c }).1 =
      (get_recipes_without_cache s).1) := by
  rw [runWithoutCacheN_eq]
  exact ⟨rfl, rfl, rfl, fun c => rfl⟩

/-- C7 counterexample: the claim that every amount admitted by
`DecimalField(max_digits=6, decimal_places=3)` is non-negative is false —
the declaration admits `-0.001` (numerator `-1`). -/
theorem valid_amount_nonneg_false :
    ¬ (∀ a : DecimalAmount, a.valid →
        a.scaled.natAbs < 10 ^ 6 ∧ 0 ≤ a.scaled) := by
  intro h
  exact absurd (h ⟨-1⟩ (by decide)).2 (by decide)

/-- C7 (amended): every amount admitted by the declared field has at most 6
significant digits in total at scale 3 (numerator in thousandths below
`10 ^ 6` in magnitude) and is stored exactly, with no binary-float rounding
(dividing the numerator by the scale factor and multiplying back recovers it
exactly over `ℚ`); non-negativity is not enforced by the declaration. -/
theorem valid_amount_fixed_point (a : DecimalAmount) (h : a.valid) :
    a.scaled.natAbs < 10 ^ 6 ∧
    ((a.scaled : ℚ) / 1000) * 1000 = (a.scaled : ℚ) := by
  refine ⟨h, ?_⟩
  field_simp

/-- C7 witness: the spec's sample amount 1.250 (numerator 1250). -/
theorem valid_amount_fixed_point_witness :
    (⟨1250⟩ : DecimalAmount).scaled.natAbs < 10 ^ 6 ∧
    (((⟨1250⟩ : DecimalAmount).scaled : ℚ) / 1000) * 1000 =
      ((⟨1250⟩ : DecimalAmount).scaled : ℚ) :=
  valid_amount_fixed_point ⟨1250⟩ (by decide)

/-- C6: the response-cache variant uses a TTL of exactly 900 seconds
(15 minutes); starting with an empty response cache, the first request
executes the handler (one fetch), a second request within the TTL returns
the identical rendered output with no further fetch, and a request at or
after expiry re-executes the full handler, issuing exactly one fresh fetch. -/
theorem responseCache_ttl_900 (s : ViewState) (t0 t1 t2 : Nat)
    (h0 : s.respCache = none)
    (h1 : t1 < t0 + CACHE_TTL)
    (h2 : t0 + CACHE_TTL ≤ t2) :
    CACHE_TTL = 900 ∧
    (recipes_view t0 s).2.st.fetchCount = s.st.fetchCount + 1 ∧
    (recipes_view t1 (recipes_view t0 s).2).1 = (recipes_view t0 s).1 ∧
    (recipes_view t1 (recipes_view t0 s).2).2.st.fetchCount =
      s.st.fetchCount + 1 ∧
    (recipes_view t2 (recipes_view t1 (recipes_view t0 s).2).2).2.st.fetchCount =
      s.st.fetchCount + 2 := by
  have h2' : ¬ t2 < t0 + CACHE_TTL := by omega
  refine ⟨rfl, ?_, ?_, ?_, ?_⟩ <;>
    simp [recipes_view, h0, h1, h2', recipes_view_body,
      get_recipes_without_cache, fetchRecipes, render]

/-- C6 witness: requests at instants 0, 10 and 900 over the one-recipe
store. -/
theorem responseCache_ttl_900_witness :
    CACHE_TTL = 900 ∧
    (recipes_view 0 ⟨stMiss, none⟩).2.st.fetchCount = stMiss.fetchCount + 1 ∧
    (recipes_view 10 (recipes_view 0 ⟨stMiss, none⟩).2).1 =
      (recipes_view 0 ⟨stMiss, none⟩).1 ∧
    (recipes_view 10 (recipes_view 0 ⟨stMiss, none⟩).2).2.st.fetchCount =
      stMiss.fetchCount + 1 ∧
    (recipes_view 900
        (recipes_view 10 (recipes_view 0 ⟨stMiss, none⟩).2).2).2.st.fetchCount =
      stMiss.fetchCount + 2 :=
  responseCache_ttl_900 ⟨stMiss, none⟩ 0 10 900 rfl (by decide) (by decide)

/-- Monadic bind on a raised error short-circuits. -/
lemma except_bind_error {E α β : Type} (e : E) (f : α → Except E β) :
    (Except.error e : Except E α) >>= f = Except.error e := rfl

/-- Monadic bind on a successful value continues with it. -/
lemma except_bind_ok {E α β : Type} (a : α) (f : α → Except E β) :
    (Except.ok a : Except E α) >>= f = f a := rfl

/-- Mapping over a raised error short-circuits. -/
lemma except_map_error {E α β : Type} (e : E) (f : α → β) :
    f <$> (Except.error e : Except E α) = Except.error e := rfl

/-- Mapping over a successful value applies the function. -/
lemma except_map_ok {E α β : Type} (a : α) (f : α → β) :
    f <$> (Except.ok a : Except E α) = Except.ok (f a) := rfl

/-- C8: no function in scope catches or translates errors — whichever
capability raises first (the Entity Store fetch, any cache operation, or the
render), `get_recipes_without_cache`, `get_recipes_with_cache` and
`recipes_view` propagate exactly that error to the caller. -/
theorem errors_propagate_unmodified {E : Type} (e : E)
    (caps1 caps2 caps3 caps4 caps5 : Caps E) (rs : List Recipe)
    (h1 : caps1.fetch = .error e)
    (h2 : caps2.cacheHas "recipes" = .error e)
    (h3a : caps3.cacheHas "recipes" = .ok true)
    (h3b : caps3.cacheGet "recipes" = .error e)
    (h4a : caps4.cacheHas "recipes" = .ok false)
    (h4b : caps4.fetch = .error e)
    (h5a : caps5.cacheHas "recipes" = .ok false)
    (h5b : caps5.fetch = .ok rs)
    (h5c : caps5.cacheSet "recipes" rs = .error e)
    (h6 : caps5.renderPage rs = .error e) :
    get_recipes_without_cacheExc caps1 = .error e ∧
    recipes_viewExc caps1 = .error e ∧
    get_recipes_with_cacheExc caps2 = .error e ∧
    get_recipes_with_cacheExc caps3 = .error e ∧
    get_recipes_with_cacheExc caps4 = .error e ∧
    get_recipes_with_cacheExc caps5 = .error e ∧
    recipes_viewExc caps5 = .error e := by
  refine ⟨?_, ?_, ?_, ?_, ?_, ?_, ?_⟩ <;>
    simp [get_recipes_without_cacheExc, get_recipes_with_cacheExc,
      recipes_viewExc, h1, h2, h3a, h3b, h4a, h4b, h5a, h5b, h5c, h6,
      except_bind_error, except_bind_ok, except_map_error, except_map_ok]

/-- Capabilities whose Entity Store fetch raises. -/
def capsFetchErr : Caps String :=
  ⟨.error "boom", fun _ => .ok false, fun _ => .ok none, fun _ _ => .ok (),
    fun rs => .ok (render "cookbook/recipes.html" rs)⟩

/-- Capabilities whose cache membership test raises. -/
def capsHasErr : Caps String :=
  ⟨.ok [], fun _ => .error "boom", fun _ => .ok none, fun _ _ => .ok (),
    fun rs => .ok (render "cookbook/recipes.html" rs)⟩

/-- Capabilities whose cache read raises after a successful membership test. -/
def capsGetErr : Caps String :=
  ⟨.ok [], fun _ => .ok true, fun _ => .error "boom", fun _ _ => .ok (),
    fun rs => .ok (render "cookbook/recipes.html" rs)⟩

/-- Capabilities whose cache write and render raise after a successful
fetch. -/
def capsSetErr : Caps String :=
  ⟨.ok [], fun _ => .ok false, fun _ => .ok none, fun _ _ => .error "boom",
    fun _ => .error "boom"⟩

/-- C8 witness: each of the error scenarios at concrete capabilities. -/
theorem errors_propagate_unmodified_witness :
    get_recipes_without_cacheExc capsFetchErr = .error "boom" ∧
    recipes_viewExc capsFetchErr = .error "boom" ∧
    get_recipes_with_cacheExc capsHasErr = .error "boom" ∧
    get_recipes_with_cacheExc capsGetErr = .error "boom" ∧
    get_recipes_with_cacheExc capsFetchErr = .error "boom" ∧
    get_recipes_with_cacheExc capsSetErr = .error "boom" ∧
    recipes_viewExc capsSetErr = .error "boom" :=
  errors_propagate_unmodified "boom" capsFetchErr capsHasErr capsGetErr
    capsFetchErr capsSetErr [] rfl rfl rfl rfl rfl rfl rfl rfl rfl rfl
